import Mathlib

set_option maxRecDepth 10000

/-!
Verification of the payment worker (`src/Payment-Worker.js`): the BEpusdt
signature algorithm (`generateSignature` / `verifySignature`), the callback
processor (`handlePaymentNotify` / `updatePaymentRecord`), order creation
(`handleCreatePayment`), and the status query
(`handleQueryStatus` / `getPaymentRecordByTradeId`), shallowly embedded in
Lean together with theorems settling the specified properties.
-/

namespace PaymentWorker

/-- A JavaScript value as it occurs in the worker's JSON bodies and
parameter objects: `undefined` (an absent field), a string, or an
(integral) number.  Floating-point amounts are carried as strings by the
callback payloads, so integers suffice for the `num` case. -/
inductive JVal where
  | undef
  | str (s : String)
  | num (n : Int)
deriving DecidableEq, Repr

/-- JS template-literal stringification as used in
"`${key}=${params[key]}`": strings unchanged, numbers in decimal,
`undefined` rendered as "undefined". -/
def jsToStr : JVal → String
  | .undef => "undefined"
  | .str s => s
  | .num n => toString n

/-- JS truthiness of a `JVal` (`undefined`, `''` and `0` are falsy). -/
def jsTruthy : JVal → Bool
  | .undef => false
  | .str s => s != ""
  | .num n => n != 0

/-- JS `a || b` on `JVal`s. -/
def jsOr (a b : JVal) : JVal := if jsTruthy a then a else b

/-- JS `String.prototype.toLowerCase` (ASCII-faithful): lower-case every
character of the string. -/
def jsToLowerCase (s : String) : String := ⟨s.data.map Char.toLower⟩

/-- JS `String.prototype.toUpperCase` (ASCII-faithful). -/
def jsToUpperCase (s : String) : String := ⟨s.data.map Char.toUpper⟩

/-- The UTF-8 encoding of a single character. -/
def utf8Bytes (c : Char) : List Nat :=
  let n := c.toNat
  if n < 0x80 then [n]
  else if n < 0x800 then
    [0xC0 ||| (n >>> 6), 0x80 ||| (n &&& 0x3F)]
  else if n < 0x10000 then
    [0xE0 ||| (n >>> 12), 0x80 ||| ((n >>> 6) &&& 0x3F), 0x80 ||| (n &&& 0x3F)]
  else
    [0xF0 ||| (n >>> 18), 0x80 ||| ((n >>> 12) &&& 0x3F),
     0x80 ||| ((n >>> 6) &&& 0x3F), 0x80 ||| (n &&& 0x3F)]

/-- The UTF-8 bytes of a string, as `TextEncoder().encode` produces them. -/
def strBytes (s : String) : List Nat := s.data.flatMap utf8Bytes

-- ===========================================================================
-- MD5 (the digest primitive behind `crypto.subtle.digest('MD5', …)`)
-- ===========================================================================

/-- 2^32, the word modulus of MD5. -/
def M32 : Nat := 4294967296

/-- Rotate a 32-bit word (given as a `Nat` below 2^32) left by `n` bits. -/
def rotl (x n : Nat) : Nat := (((x <<< n) % M32) ||| (x >>> (32 - n)))

/-- The 64 MD5 round constants `K[i] = ⌊2^32·|sin(i+1)|⌋`. -/
def md5K : List Nat :=
  [0xd76aa478, 0xe8c7b756, 0x242070db, 0xc1bdceee, 0xf57c0faf, 0x4787c62a,
   0xa8304613, 0xfd469501, 0x698098d8, 0x8b44f7af, 0xffff5bb1, 0x895cd7be,
   0x6b901122, 0xfd987193, 0xa679438e, 0x49b40821, 0xf61e2562, 0xc040b340,
   0x265e5a51, 0xe9b6c7aa, 0xd62f105d, 0x02441453, 0xd8a1e681, 0xe7d3fbc8,
   0x21e1cde6, 0xc33707d6, 0xf4d50d87, 0x455a14ed, 0xa9e3e905, 0xfcefa3f8,
   0x676f02d9, 0x8d2a4c8a, 0xfffa3942, 0x8771f681, 0x6d9d6122, 0xfde5380c,
   0xa4beea44, 0x4bdecfa9, 0xf6bb4b60, 0xbebfbc70, 0x289b7ec6, 0xeaa127fa,
   0xd4ef3085, 0x04881d05, 0xd9d4d039, 0xe6db99e5, 0x1fa27cf8, 0xc4ac5665,
   0xf4292244, 0x432aff97, 0xab9423a7, 0xfc93a039, 0x655b59c3, 0x8f0ccc92,
   0xffeff47d, 0x85845dd1, 0x6fa87e4f, 0xfe2ce6e0, 0xa3014314, 0x4e0811a1,
   0xf7537e82, 0xbd3af235, 0x2ad7d2bb, 0xeb86d391]

/-- The 64 MD5 per-round left-rotation amounts. -/
def md5S : List Nat :=
  [7, 12, 17, 22, 7, 12, 17, 22, 7, 12, 17, 22, 7, 12, 17, 22,
   5, 9, 14, 20, 5, 9, 14, 20, 5, 9, 14, 20, 5, 9, 14, 20,
   4, 11, 16, 23, 4, 11, 16, 23, 4, 11, 16, 23, 4, 11, 16, 23,
   6, 10, 15, 21, 6, 10, 15, 21, 6, 10, 15, 21, 6, 10, 15, 21]

/-- The MD5 round mixing function (round selected by the index `i`). -/
def md5F (i b c d : Nat) : Nat :=
  if i < 16 then (b &&& c) ||| ((b ^^^ 0xFFFFFFFF) &&& d)
  else if i < 32 then (d &&& b) ||| ((d ^^^ 0xFFFFFFFF) &&& c)
  else if i < 48 then b ^^^ c ^^^ d
  else c ^^^ (b ||| (d ^^^ 0xFFFFFFFF))

/-- The MD5 message-word schedule index for round `i`. -/
def md5G (i : Nat) : Nat :=
  if i < 16 then i
  else if i < 32 then (5 * i + 1) % 16
  else if i < 48 then (3 * i + 5) % 16
  else (7 * i) % 16

/-- One MD5 round on the state `(a,b,c,d)` with message words `M`. -/
def md5Round (M : List Nat) (st : Nat × Nat × Nat × Nat) (i : Nat) :
    Nat × Nat × Nat × Nat :=
  let (a, b, c, d) := st
  let f := (md5F i b c d + a + md5K.getD i 0 + M.getD (md5G i) 0) % M32
  (d, (b + rotl f (md5S.getD i 0)) % M32, b, c)

/-- Process one 64-byte chunk (already split into 16 words `M`). -/
def md5Chunk (h : Nat × Nat × Nat × Nat) (M : List Nat) :
    Nat × Nat × Nat × Nat :=
  let (a, b, c, d) := (List.range 64).foldl (md5Round M) h
  ((h.1 + a) % M32, (h.2.1 + b) % M32, (h.2.2.1 + c) % M32, (h.2.2.2 + d) % M32)

/-- `count`-byte little-endian rendering of `n`. -/
def leBytes (n count : Nat) : List Nat :=
  (List.range count).map (fun i => (n >>> (8 * i)) % 256)

/-- Group a byte list into little-endian 32-bit words. -/
def toWords : List Nat → List Nat
  | b0 :: b1 :: b2 :: b3 :: rest =>
      (b0 + 256 * b1 + 65536 * b2 + 16777216 * b3) :: toWords rest
  | _ => []

/-- MD5 padding: append `0x80`, zero-fill to 56 mod 64, then the original
bit length as 8 little-endian bytes. -/
def md5Pad (msg : List Nat) : List Nat :=
  msg ++ [0x80] ++ List.replicate ((119 - msg.length % 64) % 64) 0
      ++ leBytes ((msg.length * 8) % (2 ^ 64)) 8

/-- The MD5 digest of a byte sequence, as 16 bytes. -/
def md5Bytes (msg : List Nat) : List Nat :=
  let p := md5Pad msg
  let (a, b, c, d) := (List.range (p.length / 64)).foldl
      (fun h i => md5Chunk h (toWords ((p.drop (64 * i)).take 64)))
      (0x67452301, 0xefcdab89, 0x98badcfe, 0x10325476)
  leBytes a 4 ++ leBytes b 4 ++ leBytes c 4 ++ leBytes d 4

/-- The lowercase hexadecimal digit of `n % 16`, rendered as
`toString(16)` renders one digit: code 48 + d for `0`-`9`, code 87 + d for
`a`-`f`. -/
def hexDigit (n : Nat) : Char :=
  if n % 16 < 10 then Char.ofNat (48 + n % 16) else Char.ofNat (87 + n % 16)

/-- The MD5 digest of a byte sequence rendered as 32 lowercase hexadecimal
characters (`b.toString(16).padStart(2,'0')` joined over the bytes). -/
def md5Hex (msg : List Nat) : String :=
  ⟨(md5Bytes msg).flatMap (fun b => [hexDigit (b / 16), hexDigit (b % 16)])⟩

-- sanity checks against the RFC 1321 test vectors
example : md5Hex (strBytes "") = "d41d8cd98f00b204e9800998ecf8427e" := by decide
example : md5Hex (strBytes "abc") = "900150983cd24fb0d6963f7d28e17f72" := by decide

-- ===========================================================================
-- Canonical signer (`generateSignature` / `verifySignature`)
-- ===========================================================================

/-- JS string `<` as `Array.prototype.sort` applies it to keys: strict
lexicographic comparison of the code-unit sequences. -/
def jsStrLt : List Char → List Char → Bool
  | _, [] => false
  | [], _ :: _ => true
  | a :: as, b :: bs =>
    if a.toNat < b.toNat then true
    else if b.toNat < a.toNat then false
    else jsStrLt as bs

/-- The non-strict key comparison induced by `jsStrLt`. -/
def jsLe (a b : String) : Bool := !jsStrLt b.data a.data

/-- `jsLe` as a relation, for use with `List.insertionSort`. -/
def jsLeRel (a b : String) : Prop := jsLe a b = true

instance : DecidableRel jsLeRel := fun a b =>
  inferInstanceAs (Decidable (jsLe a b = true))

/-- `jsLeRel` on the first component of a key-value pair. -/
def jsLeFst (a b : String × JVal) : Prop := jsLeRel a.1 b.1

instance : DecidableRel jsLeFst := fun a b =>
  inferInstanceAs (Decidable (jsLeRel a.1 b.1))

/-- A JS object as an insertion-ordered association list of fields
(keys are unique in an object; theorems assume `(·.map Prod.fst).Nodup`
where it matters). -/
abbrev Params := List (String × JVal)

/-- JS property access `params[key]`: the value of the first matching key,
`undefined` when the key is absent. -/
def jsGet (params : Params) (k : String) : JVal :=
  (params.lookup k).getD JVal.undef

/-- The filter applied to the sorted key list in `generateSignature`:
`key !== 'signature' && params[key] !== undefined && params[key] !== ''`. -/
def signKeep (params : Params) (k : String) : Bool :=
  k != "signature" && jsGet params k != JVal.undef && jsGet params k != JVal.str ""

/-- The string `signStr + token` that `generateSignature` hashes: sort the
object's keys lexicographically, drop `signature` and absent/empty values,
join the remaining `key=value` pairs with `&`, append the token. -/
def signBase (params : Params) (token : String) : String :=
  String.intercalate "&"
      (((List.insertionSort jsLeRel (params.map Prod.fst)).filter
          (signKeep params)).map
        (fun k => k ++ "=" ++ jsToStr (jsGet params k)))
    ++ token

/-- `generateSignature(params, token)`: MD5 the canonical string and render
as lowercase hex (`hashHex.toLowerCase()`). -/
def generateSignature (params : Params) (token : String) : String :=
  jsToLowerCase (md5Hex (strBytes (signBase params token)))

/-- `verifySignature(params, token, signature)`: recompute and compare
against `signature.toLowerCase()`. -/
def verifySignature (params : Params) (token : String) (signature : String) :
    Bool :=
  generateSignature params token == jsToLowerCase signature

/-- The reference signer, following the spec's words: drop the signature
field and every field whose value is absent or empty, sort the remaining
fields by name bytewise-lexicographically, join them as `name=value` pairs
with `&`, append the secret as a raw suffix, hash, render as lowercase
hexadecimal. -/
def specBase (params : Params) (secret : String) : String :=
  String.intercalate "&"
      ((List.insertionSort jsLeFst
          (params.filter (fun kv =>
            kv.1 != "signature" && kv.2 != JVal.undef && kv.2 != JVal.str ""))).map
        (fun kv => kv.1 ++ "=" ++ jsToStr kv.2))
    ++ secret

/-- The reference digest: hash of the reference canonical string, lowercase
hexadecimal. -/
def specSign (params : Params) (secret : String) : String :=
  md5Hex (strBytes (specBase params secret))

-- ===========================================================================
-- Order repository (`payment_records` rows and the SQL write/read helpers)
-- ===========================================================================

/-- A row of the `payment_records` table as the worker reads and writes it.
`block_transaction_id` and `updated_at` are nullable columns not set by the
initial INSERT (`none` models SQL NULL). -/
structure PaymentRecord where
  order_id : JVal
  trade_id : String
  amount : JVal
  actual_amount : JVal
  trade_type : JVal
  user_id : JVal
  status : JVal
  payment_url : String
  token : String
  block_transaction_id : Option JVal
  created_at : Int
  updated_at : Option Int
deriving DecidableEq, Repr

/-- Whether a JS value can be bound as a D1 statement parameter:
`undefined` cannot — `.bind(undefined)` throws `D1_TYPE_ERROR` before the
statement runs. -/
def d1Bindable : JVal → Bool
  | .undef => false
  | _ => true

/-- Whether a bound JS value matches a stored cell in a SQL `=` comparison:
equal strings or equal numbers match; values of different storage classes
(SQLite orders INTEGER below TEXT, so `=` across classes is never true)
never match. -/
def sqlEq : JVal → JVal → Bool
  | .str a, .str b => a == b
  | .num a, .num b => a == b
  | _, _ => false

/-- The field values bound by `updatePaymentRecord`'s UPDATE statement. -/
structure UpdateFields where
  status : JVal
  block_transaction_id : JVal
  actual_amount : JVal
  updated_at : Int
deriving DecidableEq, Repr

/-- `updatePaymentRecord(env, orderId, updates)`:
`UPDATE payment_records SET status = ?, block_transaction_id = ?,
actual_amount = ?, updated_at = ? WHERE order_id = ?`.  If any bound
parameter — a SET value or the WHERE key — is `undefined`, the D1 bind
throws and the function's own catch swallows it, so nothing is written
(`updated_at` is `Date.now()`, always a number).  Otherwise the UPDATE
unconditionally overwrites every row whose `order_id` matches. -/
def updatePaymentRecord (store : List PaymentRecord) (orderId : JVal)
    (u : UpdateFields) : List PaymentRecord :=
  if d1Bindable u.status && d1Bindable u.block_transaction_id &&
      d1Bindable u.actual_amount && d1Bindable orderId then
    store.map (fun r =>
      if sqlEq orderId r.order_id then
        { r with
          status := u.status
          block_transaction_id := some u.block_transaction_id
          actual_amount := u.actual_amount
          updated_at := some u.updated_at }
      else r)
  else store

/-- `getPaymentRecordByTradeId(env, tradeId)`: the repository lookup; its
own try/catch maps a throwing query to `null`.  The query outcome (a row,
no row, or a thrown error) is passed in explicitly. -/
def getPaymentRecordByTradeId
    (queryResult : Except String (Option PaymentRecord)) :
    Option PaymentRecord :=
  match queryResult with
  | .ok r => r
  | .error _ => none

-- ===========================================================================
-- Callback processor (`handlePaymentNotify`)
-- ===========================================================================

/-- The parsed JSON body of an inbound `/api/pay/notify` callback: the
eight destructured fields (`undef` models an absent field) plus any
channel-specific extra fields the body carries (which the destructuring
ignores). -/
structure NotifyBody where
  trade_id : JVal
  order_id : JVal
  amount : JVal
  actual_amount : JVal
  token : JVal
  block_transaction_id : JVal
  signature : JVal
  status : JVal
  extras : List (String × JVal)
deriving DecidableEq, Repr

/-- The object literal fed to `verifySignature` by `handlePaymentNotify`:
`{ trade_id, order_id, amount, actual_amount, token, block_transaction_id,
status }`. -/
def verifyParamsOf (b : NotifyBody) : Params :=
  [("trade_id", b.trade_id), ("order_id", b.order_id), ("amount", b.amount),
   ("actual_amount", b.actual_amount), ("token", b.token),
   ("block_transaction_id", b.block_transaction_id), ("status", b.status)]

/-- An HTTP response as a plain body and status code. -/
structure HttpResponse where
  body : String
  status : Nat
deriving DecidableEq, Repr

/-- The JSON payload of one outbound notification to the manager endpoint. -/
structure ManagerNotify where
  order_id : JVal
  trade_id : JVal
  amount : JVal
  actual_amount : JVal
  status : JVal
  block_transaction_id : JVal
deriving DecidableEq, Repr

/-- Everything observable about one `handlePaymentNotify` invocation: the
HTTP response, the repository state afterwards, and the outbound
notification calls issued. -/
structure NotifyOutcome where
  response : HttpResponse
  store : List PaymentRecord
  managerCalls : List ManagerNotify
deriving DecidableEq, Repr

/-- JS falsiness of an environment variable (`undefined` and `''` are
falsy). -/
def envFalsy : Option String → Bool
  | none => true
  | some s => s == ""

/-- `handlePaymentNotify(request, env)` on a parsed body.  A non-string
`signature` makes `signature.toLowerCase()` throw, reaching the outer catch
(`'error'`/500).  On verification failure: `'签名错误'`/400 and no write.
On success: overwrite keyed by `order_id` (an undefined bound value makes
the write a swallowed no-op, see `updatePaymentRecord`), then — when
`status === 2` and the manager URL is truthy — one notification whose
own failure (`managerOk = false`) is caught and ignored; the response is
`'ok'`/200 either way. -/
def handlePaymentNotify (apiToken : String) (managerNotifyUrl : Option String)
    (b : NotifyBody) (store : List PaymentRecord) (now : Int)
    (managerOk : Bool) : NotifyOutcome :=
  match b.signature with
  | JVal.str sig =>
    if verifySignature (verifyParamsOf b) apiToken sig then
      let store' := updatePaymentRecord store b.order_id
        { status := b.status
          block_transaction_id := jsOr b.block_transaction_id (JVal.str "")
          actual_amount := b.actual_amount
          updated_at := now }
      let calls :=
        if b.status = JVal.num 2 then
          if envFalsy managerNotifyUrl then []
          else
            [{ order_id := b.order_id, trade_id := b.trade_id,
               amount := b.amount, actual_amount := b.actual_amount,
               status := b.status,
               block_transaction_id := b.block_transaction_id }]
        else []
      -- a failed manager fetch (`managerOk = false`) is swallowed by its
      -- local try/catch and affects neither the store nor the response
      { response := ⟨"ok", 200⟩, store := store', managerCalls := calls }
    else
      { response := ⟨"签名错误", 400⟩, store := store, managerCalls := [] }
  | _ => { response := ⟨"error", 500⟩, store := store, managerCalls := [] }

-- ===========================================================================
-- Gateway client (`handleCreatePayment`)
-- ===========================================================================

/-- The parsed JSON body of a `/api/pay/create` request
(`{ order_id, amount, trade_type, user_id }`, any field possibly absent). -/
structure CreateBody where
  order_id : JVal
  amount : JVal
  trade_type : JVal
  user_id : JVal
deriving DecidableEq, Repr

/-- The `data` object of a successful BEpusdt creation response. -/
structure GwData where
  trade_id : String
  actual_amount : JVal
  payment_url : String
  token : String
deriving DecidableEq, Repr

/-- A parsed BEpusdt creation response (`status_code`, optional `message`,
`data`). -/
structure GwResult where
  status_code : Int
  message : Option String
  data : GwData
deriving DecidableEq, Repr

/-- The JSON envelope returned by `handleCreatePayment` (the success
payload mirrors gateway fields and is not needed by any claim, so only the
envelope is modelled). -/
structure CreateResp where
  success : Bool
  error : Option String
  status : Nat
deriving DecidableEq, Repr

/-- The observable outcome of `handleCreatePayment`: the response, the
repository state afterwards, and how many calls reached the upstream
gateway. -/
structure CreateOutcome where
  response : CreateResp
  store : List PaymentRecord
  upstreamCalls : Nat
deriving DecidableEq, Repr

/-- `result.message || '创建支付订单失败'`. -/
def gwMessageOr (m : Option String) : String :=
  match m with
  | some s => if s == "" then "创建支付订单失败" else s
  | none => "创建支付订单失败"

/-- `handleCreatePayment(request, env)` on a parsed body.  Validation and
configuration checks run before any network call; the upstream exchange is
passed in as `gw` (`.error msg` models a thrown `fetch`/`json()`, caught by
the outer catch).  On gateway success a new record is inserted via
`savePaymentRecord`, whose own INSERT failure is swallowed: a duplicate
`order_id` violates the table's UNIQUE constraint, so nothing is inserted
then.  The outbound signed payload itself is sent, never stored, so its
contents are not tracked — only that a call was issued. -/
def handleCreatePayment (apiUrl apiToken : Option String) (body : CreateBody)
    (gw : Except String GwResult) (store : List PaymentRecord) (now : Int) :
    CreateOutcome :=
  if !jsTruthy body.order_id || !jsTruthy body.amount then
    { response := ⟨false, some "缺少必要参数", 400⟩, store := store,
      upstreamCalls := 0 }
  else if envFalsy apiUrl || envFalsy apiToken then
    { response := ⟨false, some "支付通道未配置", 500⟩, store := store,
      upstreamCalls := 0 }
  else
    match gw with
    | .error msg =>
      { response := ⟨false, some msg, 500⟩, store := store, upstreamCalls := 1 }
    | .ok r =>
      if r.status_code = 200 then
        { response := ⟨true, none, 200⟩,
          store :=
            if store.any (fun p => sqlEq body.order_id p.order_id) then store
            else store ++
            [{ order_id := body.order_id
               trade_id := r.data.trade_id
               amount := body.amount
               actual_amount := r.data.actual_amount
               trade_type := jsOr body.trade_type (JVal.str "usdt.trc20")
               user_id := jsOr body.user_id (JVal.str "")
               status := JVal.num 1
               payment_url := r.data.payment_url
               token := r.data.token
               block_transaction_id := none
               created_at := now
               updated_at := none }]
          upstreamCalls := 1 }
      else
        { response := ⟨false, some (gwMessageOr r.message), 400⟩,
          store := store, upstreamCalls := 1 }

-- ===========================================================================
-- Status query (`handleQueryStatus`)
-- ===========================================================================

/-- The `data` object of a successful status-query response. -/
structure QuerySnapshot where
  order_id : JVal
  trade_id : String
  status : JVal
  amount : JVal
  actual_amount : JVal
  payment_url : String
deriving DecidableEq, Repr

/-- The JSON envelope returned by `handleQueryStatus`. -/
structure QueryResp where
  success : Bool
  error : Option String
  data : Option QuerySnapshot
  status : Nat
deriving DecidableEq, Repr

/-- `handleQueryStatus(tradeId, env)`: look the record up through
`getPaymentRecordByTradeId` (which maps a thrown query to `null`); `null`
yields `订单不存在`/404, a record yields its snapshot with 200.  Nothing in
the try block can throw after the lookup, so the handler's catch (the
500 branch) is not reachable through a lookup failure. -/
def handleQueryStatus (queryResult : Except String (Option PaymentRecord)) :
    QueryResp :=
  match getPaymentRecordByTradeId queryResult with
  | none => ⟨false, some "订单不存在", none, 404⟩
  | some r =>
    ⟨true, none,
      some ⟨r.order_id, r.trade_id, r.status, r.amount, r.actual_amount,
            r.payment_url⟩, 200⟩

-- ===========================================================================
-- Order-theoretic facts about the key comparison
-- ===========================================================================

/-- Characters with equal code points are equal. -/
theorem char_eq_of_toNat_eq {a b : Char} (h : a.toNat = b.toNat) : a = b :=
  Char.ext (UInt32.ext h)

/-- Strings with equal character data are equal. -/
theorem string_eq_of_data_eq {s t : String} (h : s.data = t.data) : s = t :=
  congrArg String.mk h

/-- `jsStrLt` is asymmetric. -/
theorem jsStrLt_asymm :
    ∀ as bs : List Char, jsStrLt as bs = true → jsStrLt bs as = false := by
  intro as
  induction as with
  | nil =>
    intro bs h
    cases bs with
    | nil => simp [jsStrLt] at h
    | cons b bs => simp [jsStrLt]
  | cons a as ih =>
    intro bs h
    cases bs with
    | nil => simp [jsStrLt] at h
    | cons b bs =>
      simp only [jsStrLt] at h ⊢
      rcases Nat.lt_trichotomy a.toNat b.toNat with hab | hab | hab
      · simp [hab, Nat.not_lt.mpr (Nat.le_of_lt hab)]
      · simp only [hab, Nat.lt_irrefl, if_false] at h ⊢
        exact ih bs h
      · simp [hab, Nat.not_lt.mpr (Nat.le_of_lt hab)] at h

/-- `jsStrLt` satisfies trichotomy. -/
theorem jsStrLt_trichotomy :
    ∀ as bs : List Char,
      jsStrLt as bs = true ∨ jsStrLt bs as = true ∨ as = bs := by
  intro as
  induction as with
  | nil =>
    intro bs
    cases bs with
    | nil => right; right; rfl
    | cons b bs => left; simp [jsStrLt]
  | cons a as ih =>
    intro bs
    cases bs with
    | nil => right; left; simp [jsStrLt]
    | cons b bs =>
      rcases Nat.lt_trichotomy a.toNat b.toNat with hab | hab | hab
      · left; simp [jsStrLt, hab]
      · rcases ih bs with h | h | h
        · left; simp [jsStrLt, hab, Nat.lt_irrefl, h]
        · right; left; simp [jsStrLt, hab, Nat.lt_irrefl, h]
        · right; right; rw [char_eq_of_toNat_eq hab, h]
      · right; left; simp [jsStrLt, hab]

/-- `jsStrLt` is transitive. -/
theorem jsStrLt_trans :
    ∀ as bs cs : List Char,
      jsStrLt as bs = true → jsStrLt bs cs = true → jsStrLt as cs = true := by
  intro as
  induction as with
  | nil =>
    intro bs cs h1 h2
    cases cs with
    | nil =>
      cases bs with
      | nil => simp [jsStrLt] at h1
      | cons b bs => simp [jsStrLt] at h2
    | cons c cs => simp [jsStrLt]
  | cons a as ih =>
    intro bs cs h1 h2
    cases bs with
    | nil => simp [jsStrLt] at h1
    | cons b bs =>
      cases cs with
      | nil => simp [jsStrLt] at h2
      | cons c cs =>
        simp only [jsStrLt] at h1 h2 ⊢
        rcases Nat.lt_trichotomy a.toNat b.toNat with hab | hab | hab
        · rcases Nat.lt_trichotomy b.toNat c.toNat with hbc | hbc | hbc
          · have hac : a.toNat < c.toNat := by omega
            simp [hac]
          · have hac : a.toNat < c.toNat := by omega
            simp [hac]
          · simp [hbc, Nat.not_lt.mpr (Nat.le_of_lt hbc)] at h2
        · rcases Nat.lt_trichotomy b.toNat c.toNat with hbc | hbc | hbc
          · have hac : a.toNat < c.toNat := by omega
            simp [hac]
          · have hac : a.toNat = c.toNat := by omega
            simp only [hab, Nat.lt_irrefl, if_false] at h1
            simp only [hbc, Nat.lt_irrefl, if_false] at h2
            simp only [hac, Nat.lt_irrefl, if_false]
            exact ih bs cs h1 h2
          · simp [hbc, Nat.not_lt.mpr (Nat.le_of_lt hbc)] at h2
        · simp [hab, Nat.not_lt.mpr (Nat.le_of_lt hab)] at h1

instance : IsTotal String jsLeRel where
  total a b := by
    unfold jsLeRel jsLe
    cases h : jsStrLt b.data a.data with
    | false => left; rfl
    | true => right; rw [jsStrLt_asymm _ _ h]; rfl

instance : IsTrans String jsLeRel where
  trans a b c h1 h2 := by
    unfold jsLeRel jsLe at h1 h2 ⊢
    simp only [Bool.not_eq_true'] at h1 h2 ⊢
    cases hca : jsStrLt c.data a.data with
    | false => rfl
    | true =>
      exfalso
      rcases jsStrLt_trichotomy a.data b.data with h | h | h
      · rw [jsStrLt_trans _ _ _ hca h] at h2; exact Bool.noConfusion h2
      · rw [h] at h1; exact Bool.noConfusion h1
      · rw [h] at hca; rw [hca] at h2; exact Bool.noConfusion h2

instance : IsAntisymm String jsLeRel where
  antisymm a b h1 h2 := by
    unfold jsLeRel jsLe at h1 h2
    simp only [Bool.not_eq_true'] at h1 h2
    rcases jsStrLt_trichotomy a.data b.data with h | h | h
    · rw [h] at h2; exact Bool.noConfusion h2
    · rw [h] at h1; exact Bool.noConfusion h1
    · exact string_eq_of_data_eq h

instance : IsTotal (String × JVal) jsLeFst where
  total a b := @IsTotal.total String jsLeRel _ a.1 b.1

instance : IsTrans (String × JVal) jsLeFst where
  trans a b c h1 h2 := @IsTrans.trans String jsLeRel _ a.1 b.1 c.1 h1 h2

-- ===========================================================================
-- Association-list lookups
-- ===========================================================================

/-- With duplicate-free keys, membership determines the lookup. -/
theorem lookup_eq_some_of_mem :
    ∀ {l : Params}, (l.map Prod.fst).Nodup →
      ∀ {k : String} {v : JVal}, (k, v) ∈ l → l.lookup k = some v := by
  intro l
  induction l with
  | nil => intro _ k v h; cases h
  | cons kv t ih =>
    intro nd k v h
    cases kv with
    | mk k1 v1 =>
      rw [List.map_cons, List.nodup_cons] at nd
      rcases List.mem_cons.mp h with h2 | h2
      · rw [← h2]
        simp [List.lookup_cons]
      · have hk : k ≠ k1 := by
          intro he
          exact nd.1 (he ▸ List.mem_map.mpr ⟨(k, v), h2, rfl⟩)
        rw [List.lookup_cons]
        have hb : (k == k1) = false := beq_eq_false_iff_ne.mpr hk
        simp only [hb]
        exact ih nd.2 h2

/-- A successful lookup is a membership. -/
theorem mem_of_lookup_eq_some :
    ∀ {l : Params} {k : String} {v : JVal},
      l.lookup k = some v → (k, v) ∈ l := by
  intro l
  induction l with
  | nil => intro k v h; cases h
  | cons kv t ih =>
    intro k v h
    cases kv with
    | mk k1 v1 =>
      rw [List.lookup_cons] at h
      by_cases he : k = k1
      · have hb : (k == k1) = true := beq_iff_eq.mpr he
        simp only [hb] at h
        cases h
        exact List.mem_cons.mpr (Or.inl (by rw [he]))
      · have hb : (k == k1) = false := beq_eq_false_iff_ne.mpr he
        simp only [hb] at h
        exact List.mem_cons.mpr (Or.inr (ih h))

/-- Permuting an association list with duplicate-free keys does not change
any lookup. -/
theorem lookup_eq_of_perm {l₁ l₂ : Params} (p : l₁.Perm l₂)
    (nd : (l₁.map Prod.fst).Nodup) (k : String) :
    l₁.lookup k = l₂.lookup k := by
  have nd₂ : (l₂.map Prod.fst).Nodup := ((p.map Prod.fst).nodup_iff).mp nd
  cases h : l₁.lookup k with
  | some v =>
    rw [lookup_eq_some_of_mem nd₂ (p.subset (mem_of_lookup_eq_some h))]
  | none =>
    cases h2 : l₂.lookup k with
    | none => rfl
    | some v =>
      have hm : (k, v) ∈ l₁ := p.symm.subset (mem_of_lookup_eq_some h2)
      have := lookup_eq_some_of_mem nd hm
      rw [h] at this
      cases this

/-- `params[k]` of a member under duplicate-free keys. -/
theorem jsGet_eq_of_mem {l : Params} (nd : (l.map Prod.fst).Nodup)
    {k : String} {v : JVal} (h : (k, v) ∈ l) : jsGet l k = v := by
  unfold jsGet
  rw [lookup_eq_some_of_mem nd h]
  rfl

-- ===========================================================================
-- Case facts about the hexadecimal rendering
-- ===========================================================================

/-- Hex digits are already lowercase. -/
theorem toLower_hexDigit (n : Nat) : Char.toLower (hexDigit n) = hexDigit n := by
  unfold hexDigit
  have h : n % 16 < 16 := Nat.mod_lt _ (by omega)
  have hm : n % 16 = 0 ∨ n % 16 = 1 ∨ n % 16 = 2 ∨ n % 16 = 3 ∨ n % 16 = 4 ∨
      n % 16 = 5 ∨ n % 16 = 6 ∨ n % 16 = 7 ∨ n % 16 = 8 ∨ n % 16 = 9 ∨
      n % 16 = 10 ∨ n % 16 = 11 ∨ n % 16 = 12 ∨ n % 16 = 13 ∨ n % 16 = 14 ∨
      n % 16 = 15 := by omega
  rcases hm with h | h | h | h | h | h | h | h | h | h | h | h | h | h | h | h <;>
    rw [h] <;> decide

/-- Upper-casing then lower-casing restores a hex digit. -/
theorem toLower_toUpper_hexDigit (n : Nat) :
    Char.toLower (Char.toUpper (hexDigit n)) = hexDigit n := by
  unfold hexDigit
  have h : n % 16 < 16 := Nat.mod_lt _ (by omega)
  have hm : n % 16 = 0 ∨ n % 16 = 1 ∨ n % 16 = 2 ∨ n % 16 = 3 ∨ n % 16 = 4 ∨
      n % 16 = 5 ∨ n % 16 = 6 ∨ n % 16 = 7 ∨ n % 16 = 8 ∨ n % 16 = 9 ∨
      n % 16 = 10 ∨ n % 16 = 11 ∨ n % 16 = 12 ∨ n % 16 = 13 ∨ n % 16 = 14 ∨
      n % 16 = 15 := by omega
  rcases hm with h | h | h | h | h | h | h | h | h | h | h | h | h | h | h | h <;>
    rw [h] <;> decide

/-- MD5 hex output is unchanged by `toLowerCase`. -/
theorem jsToLowerCase_md5Hex (msg : List Nat) :
    jsToLowerCase (md5Hex msg) = md5Hex msg := by
  apply string_eq_of_data_eq
  show ((md5Bytes msg).flatMap
      (fun b => [hexDigit (b / 16), hexDigit (b % 16)])).map Char.toLower =
    (md5Bytes msg).flatMap (fun b => [hexDigit (b / 16), hexDigit (b % 16)])
  generalize md5Bytes msg = l
  induction l with
  | nil => rfl
  | cons b t ih =>
    simp only [List.flatMap_cons, List.map_append, List.map_cons, List.map_nil,
      toLower_hexDigit, ih]

/-- MD5 hex output round-trips through `toUpperCase` then `toLowerCase`. -/
theorem jsToLowerCase_jsToUpperCase_md5Hex (msg : List Nat) :
    jsToLowerCase (jsToUpperCase (md5Hex msg)) = md5Hex msg := by
  apply string_eq_of_data_eq
  show (((md5Bytes msg).flatMap
      (fun b => [hexDigit (b / 16), hexDigit (b % 16)])).map Char.toUpper).map
        Char.toLower =
    (md5Bytes msg).flatMap (fun b => [hexDigit (b / 16), hexDigit (b % 16)])
  rw [List.map_map]
  generalize md5Bytes msg = l
  induction l with
  | nil => rfl
  | cons b t ih =>
    simp only [List.flatMap_cons, List.map_append, List.map_cons, List.map_nil,
      Function.comp_apply, toLower_toUpper_hexDigit, ih]

/-- The trailing `toLowerCase` in `generateSignature` is the identity. -/
theorem generateSignature_eq_md5Hex (params : Params) (token : String) :
    generateSignature params token = md5Hex (strBytes (signBase params token)) := by
  unfold generateSignature
  exact jsToLowerCase_md5Hex _

-- ===========================================================================
-- The code's canonical string equals the spec's canonical string
-- ===========================================================================

/-- Under duplicate-free keys, sorting the keys and then filtering (as the
code does) produces the same `key=value` item list as filtering the pairs
and then sorting them by name (as the spec describes). -/
theorem signBase_eq_specBase (params : Params) (token : String)
    (nd : (params.map Prod.fst).Nodup) :
    signBase params token = specBase params token := by
  unfold signBase specBase
  have hpq : ∀ kv ∈ params,
      signKeep params kv.1 =
        (kv.1 != "signature" && kv.2 != JVal.undef && kv.2 != JVal.str "") := by
    intro kv hm
    unfold signKeep
    rw [jsGet_eq_of_mem nd (show (kv.1, kv.2) ∈ params from hm)]
  have hfilter : (params.map Prod.fst).filter (signKeep params) =
      (params.filter (fun kv =>
        kv.1 != "signature" && kv.2 != JVal.undef && kv.2 != JVal.str "")).map
        Prod.fst := by
    rw [List.filter_map]
    exact congrArg (List.map Prod.fst) (List.filter_congr hpq)
  have s1 : ((List.insertionSort jsLeRel (params.map Prod.fst)).filter
      (signKeep params)).Pairwise jsLeRel :=
    List.Pairwise.filter (signKeep params)
      (List.sorted_insertionSort jsLeRel (params.map Prod.fst))
  have s2 : ((List.insertionSort jsLeFst
      (params.filter (fun kv =>
        kv.1 != "signature" && kv.2 != JVal.undef && kv.2 != JVal.str ""))).map
        Prod.fst).Pairwise jsLeRel :=
    List.Pairwise.map Prod.fst (fun a b hh => hh)
      (List.sorted_insertionSort jsLeFst _)
  have perm1 : ((List.insertionSort jsLeRel (params.map Prod.fst)).filter
      (signKeep params)).Perm
      ((params.map Prod.fst).filter (signKeep params)) :=
    (List.perm_insertionSort jsLeRel (params.map Prod.fst)).filter
      (signKeep params)
  have perm2 : ((List.insertionSort jsLeFst
      (params.filter (fun kv =>
        kv.1 != "signature" && kv.2 != JVal.undef && kv.2 != JVal.str ""))).map
        Prod.fst).Perm
      ((params.filter (fun kv =>
        kv.1 != "signature" && kv.2 != JVal.undef && kv.2 != JVal.str "")).map
        Prod.fst) :=
    (List.perm_insertionSort jsLeFst _).map Prod.fst
  have hkeys : (List.insertionSort jsLeRel (params.map Prod.fst)).filter
      (signKeep params) =
      (List.insertionSort jsLeFst
        (params.filter (fun kv =>
          kv.1 != "signature" && kv.2 != JVal.undef && kv.2 != JVal.str ""))).map
        Prod.fst := by
    refine List.eq_of_perm_of_sorted ?_ s1 s2
    refine perm1.trans ?_
    rw [hfilter]
    exact perm2.symm
  rw [hkeys, List.map_map]
  have hitems : ∀ kv ∈ List.insertionSort jsLeFst
      (params.filter (fun kv =>
        kv.1 != "signature" && kv.2 != JVal.undef && kv.2 != JVal.str "")),
      ((fun k => k ++ "=" ++ jsToStr (jsGet params k)) ∘ Prod.fst) kv =
        kv.1 ++ "=" ++ jsToStr kv.2 := by
    intro kv hm
    have hm2 : kv ∈ params :=
      List.mem_of_mem_filter ((List.mem_insertionSort jsLeFst).mp hm)
    show kv.1 ++ "=" ++ jsToStr (jsGet params kv.1) = kv.1 ++ "=" ++ jsToStr kv.2
    rw [jsGet_eq_of_mem nd (show (kv.1, kv.2) ∈ params from hm2)]
  rw [List.map_congr_left hitems]

/-- Permuting the fields of an object with duplicate-free keys does not
change the canonical string. -/
theorem signBase_eq_of_perm (params₁ params₂ : Params) (token : String)
    (hp : params₁.Perm params₂) (nd : (params₁.map Prod.fst).Nodup) :
    signBase params₁ token = signBase params₂ token := by
  unfold signBase
  have hget : jsGet params₁ = jsGet params₂ := by
    funext k
    unfold jsGet
    rw [lookup_eq_of_perm hp nd k]
  have hkeep : signKeep params₁ = signKeep params₂ := by
    funext k
    unfold signKeep
    rw [hget]
  have hsort : List.insertionSort jsLeRel (params₁.map Prod.fst) =
      List.insertionSort jsLeRel (params₂.map Prod.fst) := by
    refine List.eq_of_perm_of_sorted ?_ (List.sorted_insertionSort jsLeRel _)
      (List.sorted_insertionSort jsLeRel _)
    exact (List.perm_insertionSort jsLeRel _).trans
      ((hp.map Prod.fst).trans (List.perm_insertionSort jsLeRel _).symm)
  rw [hsort, hkeep, hget]

-- ===========================================================================
-- Facts about repository updates
-- ===========================================================================

/-- Erase the `updated_at` column, for comparing stores up to timestamps. -/
def clearUpdatedAt (r : PaymentRecord) : PaymentRecord :=
  { r with updated_at := none }

/-- Re-running the UPDATE with the same key and the same SET values (apart
from `updated_at`) overwrites the first write. -/
theorem updatePaymentRecord_twice (store : List PaymentRecord) (oid : JVal)
    (u₁ u₂ : UpdateFields) (hs : u₁.status = u₂.status)
    (hb : u₁.block_transaction_id = u₂.block_transaction_id)
    (ha : u₁.actual_amount = u₂.actual_amount) :
    updatePaymentRecord (updatePaymentRecord store oid u₁) oid u₂ =
      updatePaymentRecord store oid u₂ := by
  unfold updatePaymentRecord
  rw [hs, hb, ha]
  by_cases hg : (d1Bindable u₂.status && d1Bindable u₂.block_transaction_id &&
      d1Bindable u₂.actual_amount && d1Bindable oid) = true
  · simp only [if_pos hg]
    rw [List.map_map]
    refine List.map_congr_left ?_
    intro r _
    by_cases h : sqlEq oid r.order_id = true <;> simp [Function.comp, h]
  · simp only [if_neg hg]

/-- Two UPDATEs that differ only in `updated_at` agree after erasing the
`updated_at` column. -/
theorem updatePaymentRecord_clear (store : List PaymentRecord) (oid : JVal)
    (u₁ u₂ : UpdateFields) (hs : u₁.status = u₂.status)
    (hb : u₁.block_transaction_id = u₂.block_transaction_id)
    (ha : u₁.actual_amount = u₂.actual_amount) :
    (updatePaymentRecord store oid u₁).map clearUpdatedAt =
      (updatePaymentRecord store oid u₂).map clearUpdatedAt := by
  unfold updatePaymentRecord
  rw [hs, hb, ha]
  by_cases hg : (d1Bindable u₂.status && d1Bindable u₂.block_transaction_id &&
      d1Bindable u₂.actual_amount && d1Bindable oid) = true
  · simp only [if_pos hg]
    rw [List.map_map, List.map_map]
    refine List.map_congr_left ?_
    intro r _
    by_cases h : sqlEq oid r.order_id = true <;>
      simp [Function.comp, clearUpdatedAt, h, hs, hb, ha]
  · simp only [if_neg hg]

-- ===========================================================================
-- Concrete inputs used by counterexamples and witnesses
-- ===========================================================================

/-- A callback whose signature field cannot match any digest. -/
def cBadSigBody : NotifyBody :=
  { trade_id := .undef, order_id := .undef, amount := .undef,
    actual_amount := .undef, token := .undef, block_transaction_id := .undef,
    signature := .str "00", status := .undef, extras := [] }

/-- The same callback with `status = 2` and its matching digest. -/
def cReplayBody : NotifyBody :=
  { trade_id := .str "T1", order_id := .str "ORD1", amount := .str "10",
    actual_amount := .str "10", token := .str "tok1",
    block_transaction_id := .str "0xabc",
    signature := .str "1ac4579c3d961057cc3e45bd8b7a2b58",
    status := .num 2, extras := [] }

/-- A callback carrying a channel-specific extra field `rate`. -/
def cExtraBody : NotifyBody :=
  { trade_id := .str "T1", order_id := .str "ORD1", amount := .str "10",
    actual_amount := .str "10", token := .str "tok1",
    block_transaction_id := .str "0xabc", signature := .str "ffff",
    status := .num 2, extras := [("rate", .str "1")] }

/-- A freshly created stored order for `ORD1` (`status = 1`). -/
def cCreatedRec : PaymentRecord :=
  { order_id := .str "ORD1", trade_id := "T1", amount := .str "10",
    actual_amount := .str "10", trade_type := .str "usdt.trc20",
    user_id := .str "", status := .num 1, payment_url := "https://pay/T1",
    token := "tok1", block_transaction_id := none,
    created_at := 0, updated_at := none }

/-- A two-field parameter object. -/
def cParams : Params := [("b", JVal.str "2"), ("a", JVal.str "1")]

/-- The same fields inserted in the opposite order. -/
def cParamsReordered : Params := [("a", JVal.str "1"), ("b", JVal.str "2")]

/-- A creation request whose `amount` is the empty string. -/
def cBadCreateBody : CreateBody :=
  { order_id := JVal.str "ORD9", amount := JVal.str "",
    trade_type := JVal.undef, user_id := JVal.undef }

/-- Modelled from the spec: the full parsed field set of a callback body —
the eight standard fields that are present, plus any channel-specific
extras the body carries (spec §4.3 step 1). -/
def parsedFields (b : NotifyBody) : Params :=
  ([("trade_id", b.trade_id), ("order_id", b.order_id), ("amount", b.amount),
    ("actual_amount", b.actual_amount), ("token", b.token),
    ("block_transaction_id", b.block_transaction_id),
    ("signature", b.signature), ("status", b.status)].filter
      (fun kv => kv.2 != JVal.undef)) ++ b.extras

/-- Modelled from the spec: the names of all parsed fields except
`signature` — the field set the spec says is fed to verification. -/
def parsedFieldNamesMinusSignature (b : NotifyBody) : List String :=
  ((parsedFields b).map Prod.fst).filter (fun k => k != "signature")

/-- A field is absent or empty (the spec's rejection precondition for
creation requests). -/
def isAbsentOrEmpty (v : JVal) : Prop := v = JVal.undef ∨ v = JVal.str ""

-- ===========================================================================
-- Claim theorems
-- ===========================================================================

/-- C1: a callback whose signature does not verify against the shared
secret is answered with `签名错误`/400, the stored orders are untouched for
every field content of the callback, and no downstream notification is
issued. -/
theorem notify_invalid_signature_rejected_no_write
    (apiToken : String) (url : Option String) (b : NotifyBody)
    (store : List PaymentRecord) (now : Int) (mok : Bool) (sig : String)
    (hsig : b.signature = JVal.str sig)
    (hv : verifySignature (verifyParamsOf b) apiToken sig = false) :
    (handlePaymentNotify apiToken url b store now mok).response =
        ⟨"签名错误", 400⟩ ∧
      (handlePaymentNotify apiToken url b store now mok).store = store ∧
      (handlePaymentNotify apiToken url b store now mok).managerCalls = [] := by
  unfold handlePaymentNotify
  rw [hsig]
  simp [hv]

/-- C1 witness: a concrete callback with signature `00` is rejected with
400 and the (empty) store is unchanged. -/
theorem notify_invalid_signature_rejected_no_write_witness :
    cBadSigBody.signature = JVal.str "00" ∧
      verifySignature (verifyParamsOf cBadSigBody) "tok" "00" = false ∧
      ((handlePaymentNotify "tok" none cBadSigBody [] 0 true).response =
          ⟨"签名错误", 400⟩ ∧
        (handlePaymentNotify "tok" none cBadSigBody [] 0 true).store = [] ∧
        (handlePaymentNotify "tok" none cBadSigBody [] 0 true).managerCalls =
          []) :=
  ⟨rfl, by decide,
    notify_invalid_signature_rejected_no_write "tok" none cBadSigBody [] 0 true
      "00" rfl (by decide)⟩

/-- C3 counterexample: replaying the same valid callback at a later
timestamp does not yield byte-identical stored state — the persisted
`updated_at` column differs between the two applications. -/
theorem notify_replay_changes_updated_at_cex :
    verifySignature (verifyParamsOf cReplayBody) "SECRET"
        "1ac4579c3d961057cc3e45bd8b7a2b58" = true ∧
      (handlePaymentNotify "SECRET" none cReplayBody
          (handlePaymentNotify "SECRET" none cReplayBody [cCreatedRec] 0
            true).store 1 true).store ≠
        (handlePaymentNotify "SECRET" none cReplayBody [cCreatedRec] 0
          true).store := by
  decide

/-- C3 amended: replaying the same callback payload leaves every persisted
field except `updated_at` unchanged, and when the second application
observes the same clock value the stored state is byte-identical. -/
theorem notify_replay_idempotent_except_updated_at
    (apiToken : String) (url : Option String) (b : NotifyBody)
    (store : List PaymentRecord) (t₁ t₂ : Int) (m₁ m₂ : Bool) :
    ((handlePaymentNotify apiToken url b
        (handlePaymentNotify apiToken url b store t₁ m₁).store t₂ m₂).store.map
          clearUpdatedAt =
      (handlePaymentNotify apiToken url b store t₁ m₁).store.map
        clearUpdatedAt) ∧
      (handlePaymentNotify apiToken url b
          (handlePaymentNotify apiToken url b store t₁ m₁).store t₁ m₂).store =
        (handlePaymentNotify apiToken url b store t₁ m₁).store := by
  cases hsig : b.signature with
  | undef => simp [handlePaymentNotify, hsig]
  | num n => simp [handlePaymentNotify, hsig]
  | str sig =>
    by_cases hv : verifySignature (verifyParamsOf b) apiToken sig = true
    · constructor
      · simp only [handlePaymentNotify, hsig, hv, if_true]
        rw [updatePaymentRecord_twice store b.order_id
          { status := b.status,
            block_transaction_id := jsOr b.block_transaction_id (JVal.str ""),
            actual_amount := b.actual_amount, updated_at := t₁ }
          { status := b.status,
            block_transaction_id := jsOr b.block_transaction_id (JVal.str ""),
            actual_amount := b.actual_amount, updated_at := t₂ }
          rfl rfl rfl]
        exact updatePaymentRecord_clear _ _ _ _ rfl rfl rfl
      · simp only [handlePaymentNotify, hsig, hv, if_true]
        rw [updatePaymentRecord_twice store b.order_id
          { status := b.status,
            block_transaction_id := jsOr b.block_transaction_id (JVal.str ""),
            actual_amount := b.actual_amount, updated_at := t₁ }
          { status := b.status,
            block_transaction_id := jsOr b.block_transaction_id (JVal.str ""),
            actual_amount := b.actual_amount, updated_at := t₁ }
          rfl rfl rfl]
    · have hv2 : verifySignature (verifyParamsOf b) apiToken sig = false :=
        Bool.not_eq_true _ ▸ (Bool.eq_false_iff.mpr hv)
      simp [handlePaymentNotify, hsig, hv2]

/-- C3 amended witness: the replay theorem at the concrete valid callback
and store, with timestamps 0 and 1. -/
theorem notify_replay_idempotent_except_updated_at_witness :
    ((handlePaymentNotify "SECRET" none cReplayBody
        (handlePaymentNotify "SECRET" none cReplayBody [cCreatedRec] 0
          true).store 1 true).store.map clearUpdatedAt =
      (handlePaymentNotify "SECRET" none cReplayBody [cCreatedRec] 0
        true).store.map clearUpdatedAt) ∧
      (handlePaymentNotify "SECRET" none cReplayBody
          (handlePaymentNotify "SECRET" none cReplayBody [cCreatedRec] 0
            true).store 0 true).store =
        (handlePaymentNotify "SECRET" none cReplayBody [cCreatedRec] 0
          true).store :=
  notify_replay_idempotent_except_updated_at "SECRET" none cReplayBody
    [cCreatedRec] 0 1 true true

/-- C4 counterexample: for a body carrying a channel-specific extra field
`rate`, the field set fed to verification is not the parsed field set minus
`signature` — the extra field is missing from it. -/
theorem verify_field_set_omits_extras_cex :
    "rate" ∈ parsedFieldNamesMinusSignature cExtraBody ∧
      "rate" ∉ (verifyParamsOf cExtraBody).map Prod.fst ∧
      ¬ ((verifyParamsOf cExtraBody).map Prod.fst).Perm
        (parsedFieldNamesMinusSignature cExtraBody) := by
  decide

/-- C4 amended: the field set fed to verification is exactly the seven
fixed fields `trade_id, order_id, amount, actual_amount, token,
block_transaction_id, status` (absent ones as `undefined`, later dropped by
the signer's presence filter); channel-specific extra fields in the body
are never part of it. -/
theorem verify_field_set_is_fixed_seven (b : NotifyBody) :
    (verifyParamsOf b).map Prod.fst =
        ["trade_id", "order_id", "amount", "actual_amount", "token",
         "block_transaction_id", "status"] ∧
      ∀ ex : List (String × JVal),
        verifyParamsOf { b with extras := ex } = verifyParamsOf b :=
  ⟨rfl, fun _ => rfl⟩

/-- C5: the code's signer agrees with the spec's reference definition on
every parameter map (with duplicate-free field names, as in any JS object)
and secret: drop `signature` and absent/empty fields, sort by name, join
`name=value` with `&`, append the secret, hash, lowercase hex. -/
theorem generateSignature_matches_spec_reference (params : Params)
    (token : String) (nd : (params.map Prod.fst).Nodup) :
    generateSignature params token = specSign params token := by
  rw [generateSignature_eq_md5Hex]
  unfold specSign
  rw [signBase_eq_specBase params token nd]

/-- C5 witness: the refinement theorem at a concrete two-field object. -/
theorem generateSignature_matches_spec_reference_witness :
    (cParams.map Prod.fst).Nodup ∧
      generateSignature cParams "tok" = specSign cParams "tok" :=
  ⟨by decide, generateSignature_matches_spec_reference cParams "tok" (by decide)⟩

/-- C6: the signer is independent of field insertion order — any
permutation of the same (duplicate-free) field set signs to the identical
digest. -/
theorem generateSignature_insertion_order_independent
    (params₁ params₂ : Params) (token : String) (hp : params₁.Perm params₂)
    (nd : (params₁.map Prod.fst).Nodup) :
    generateSignature params₁ token = generateSignature params₂ token := by
  rw [generateSignature_eq_md5Hex, generateSignature_eq_md5Hex,
    signBase_eq_of_perm params₁ params₂ token hp nd]

/-- C6 witness: reordering a concrete two-field object leaves the digest
unchanged. -/
theorem generateSignature_insertion_order_independent_witness :
    cParams.Perm cParamsReordered ∧ (cParams.map Prod.fst).Nodup ∧
      generateSignature cParams "tok" =
        generateSignature cParamsReordered "tok" :=
  ⟨by decide, by decide,
    generateSignature_insertion_order_independent cParams cParamsReordered
      "tok" (by decide) (by decide)⟩

/-- C7: verification accepts the signer's own digest for every parameter
map and secret, and the comparison is case-insensitive — the digest
re-rendered in uppercase hexadecimal is accepted as well. -/
theorem verify_accepts_own_signature_case_insensitive (params : Params)
    (token : String) :
    verifySignature params token (generateSignature params token) = true ∧
      verifySignature params token
        (jsToUpperCase (generateSignature params token)) = true := by
  unfold verifySignature
  rw [generateSignature_eq_md5Hex]
  rw [jsToLowerCase_md5Hex, jsToLowerCase_jsToUpperCase_md5Hex]
  exact ⟨beq_self_eq_true _, beq_self_eq_true _⟩

/-- C8: whenever the signature verifies, the gateway receives `ok`/200,
whether the outbound notification to the internal consumer succeeds or
throws (its try/catch swallows the failure). -/
theorem notify_ack_independent_of_notifier
    (apiToken : String) (url : Option String) (b : NotifyBody)
    (store : List PaymentRecord) (now : Int) (sig : String)
    (hsig : b.signature = JVal.str sig)
    (hv : verifySignature (verifyParamsOf b) apiToken sig = true) :
    (handlePaymentNotify apiToken url b store now true).response =
        ⟨"ok", 200⟩ ∧
      (handlePaymentNotify apiToken url b store now false).response =
        ⟨"ok", 200⟩ := by
  unfold handlePaymentNotify
  rw [hsig]
  simp [hv]

/-- C8 witness: the Ack theorem at a concrete valid completion callback
with a configured manager URL, for both notifier outcomes. -/
theorem notify_ack_independent_of_notifier_witness :
    cReplayBody.signature = JVal.str "1ac4579c3d961057cc3e45bd8b7a2b58" ∧
      verifySignature (verifyParamsOf cReplayBody) "SECRET"
        "1ac4579c3d961057cc3e45bd8b7a2b58" = true ∧
      ((handlePaymentNotify "SECRET" (some "https://mgr.example") cReplayBody
          [cCreatedRec] 7 true).response = ⟨"ok", 200⟩ ∧
        (handlePaymentNotify "SECRET" (some "https://mgr.example") cReplayBody
          [cCreatedRec] 7 false).response = ⟨"ok", 200⟩) :=
  ⟨rfl, by decide,
    notify_ack_independent_of_notifier "SECRET" (some "https://mgr.example")
      cReplayBody [cCreatedRec] 7 "1ac4579c3d961057cc3e45bd8b7a2b58" rfl
      (by decide)⟩

/-- C9: a creation request with an absent or empty `order_id` or `amount`
is answered `success:false`/400 before any side effect: no upstream call is
issued and no record is created. -/
theorem create_missing_required_fields_no_side_effects
    (apiUrl apiToken : Option String) (body : CreateBody)
    (gw : Except String GwResult) (store : List PaymentRecord) (now : Int)
    (h : isAbsentOrEmpty body.order_id ∨ isAbsentOrEmpty body.amount) :
    handleCreatePayment apiUrl apiToken body gw store now =
      { response := ⟨false, some "缺少必要参数", 400⟩, store := store,
        upstreamCalls := 0 } := by
  have hf : jsTruthy body.order_id = false ∨ jsTruthy body.amount = false := by
    rcases h with h | h <;> rcases h with h | h <;> rw [h] <;> simp [jsTruthy]
  unfold handleCreatePayment
  rcases hf with h | h <;> simp [h]

/-- C9 witness: a concrete creation request with an empty `amount` is
rejected with 400, no store change and zero upstream calls, even though the
gateway would have answered successfully. -/
theorem create_missing_required_fields_no_side_effects_witness :
    (isAbsentOrEmpty cBadCreateBody.order_id ∨
        isAbsentOrEmpty cBadCreateBody.amount) ∧
      handleCreatePayment (some "https://gw") (some "tok") cBadCreateBody
          (Except.ok ⟨200, none, ⟨"T9", JVal.str "1", "u", "t"⟩⟩) [] 0 =
        { response := ⟨false, some "缺少必要参数", 400⟩, store := [],
          upstreamCalls := 0 } :=
  ⟨Or.inr (Or.inr rfl),
    create_missing_required_fields_no_side_effects (some "https://gw")
      (some "tok") cBadCreateBody
      (Except.ok ⟨200, none, ⟨"T9", JVal.str "1", "u", "t"⟩⟩) [] 0
      (Or.inr (Or.inr rfl))⟩

/-- C10: a throwing repository query is mapped to `null` by
`getPaymentRecordByTradeId`, so the status handler answers exactly as for
an unknown id — `订单不存在`/404 — and no query outcome can reach the
handler's 500 branch. -/
theorem query_lookup_failure_indistinguishable_from_not_found (e : String) :
    handleQueryStatus (Except.error e) = handleQueryStatus (Except.ok none) ∧
      (handleQueryStatus (Except.error e)).status = 404 ∧
      (handleQueryStatus (Except.error e)).error = some "订单不存在" ∧
      ∀ q : Except String (Option PaymentRecord),
        (handleQueryStatus q).status ≠ 500 := by
  refine ⟨rfl, rfl, rfl, ?_⟩
  intro q
  cases q with
  | error e2 => simp [handleQueryStatus, getPaymentRecordByTradeId]
  | ok r =>
    cases r with
    | none => simp [handleQueryStatus, getPaymentRecordByTradeId]
    | some rec => simp [handleQueryStatus, getPaymentRecordByTradeId]

end PaymentWorker
